import Mathlib

/-!
Shallow embedding of the gas-sponsorship quota subsystem of the apzdev
repository: the tables and PL/pgSQL functions of
`supabase/migrations/003_gas_sponsorship.sql` and the phase-1 sponsorship
route handler (`POST`, the `/api/sponsor/bet` route).

Conventions:
* SQL `BIGINT` / `INT` columns are `Int`; nullable columns are `Option Int`.
* `now()` and `CURRENT_DATE` are explicit parameters `now` / `today : Int`.
* Timestamp bookkeeping columns (`sponsored_at`, `first_transaction_at`,
  `last_transaction_at`, `updated_at`, `added_at`, `created_at`) are not read
  by any function verified here and are omitted from the row types.
* PL/pgSQL `SELECT … INTO` that finds no row leaves its targets NULL; an
  `IF` whose condition evaluates to NULL takes the ELSE path.  Both are
  modelled explicitly (`Option Bool` together with `sqlNot` / `sqlIsTrue`).
-/

namespace Apzdev

/-- Row of `gas_station_config` (migration 003, lines 76-104).  The singleton
configuration row read by `check_user_gas_quota` via
`SELECT * FROM gas_station_config LIMIT 1`. -/
structure GasStationConfig where
  fee_payer_address : String
  default_daily_limit_per_user : Int
  max_gas_per_transaction : Int
  max_transactions_per_user_per_day : Int
  whitelist_enabled : Bool
  market_whitelist_enabled : Bool
  enabled : Bool
  emergency_stop : Bool
deriving DecidableEq, Repr

/-- Row of `gas_station_whitelist` (lines 125-139); primary key
`user_address`. -/
structure WhitelistEntry where
  user_address : String
  custom_daily_limit : Option Int
  is_active : Bool
  expires_at : Option Int
deriving DecidableEq, Repr

/-- Row of `gas_station_blocked_users` (lines 147-157); primary key
`user_address`; `blocked_until = none` is a permanent ban. -/
structure BlockedEntry where
  user_address : String
  blocked_until : Option Int
deriving DecidableEq, Repr

/-- Row of `user_daily_quotas` (lines 45-65); primary key
`(user_address, date)`. -/
structure UserDailyQuota where
  user_address : String
  date : Int
  gas_used_today : Int
  transactions_today : Int
  daily_limit : Option Int
  max_transactions_per_day : Option Int
deriving DecidableEq, Repr

/-- Row of `gas_sponsorship_usage` (lines 12-34); `tx_hash` carries a UNIQUE
constraint. -/
structure GasSponsorshipUsage where
  market_id : Option String
  user_address : String
  tx_hash : String
  tx_version : Int
  gas_used : Int
  gas_unit_price : Int
  total_gas_fee : Int
  fee_payer_address : String
deriving DecidableEq, Repr

/-- The persistent state owned by the quota store: the configuration row and
the four tables of migration 003. -/
structure GasStationState where
  config : GasStationConfig
  whitelist : List WhitelistEntry
  blocked : List BlockedEntry
  quotas : List UserDailyQuota
  usage : List GasSponsorshipUsage
deriving DecidableEq, Repr

/-- Result row of `check_user_gas_quota`
(`RETURNS TABLE(...)`, lines 211-217). -/
structure QuotaCheckRow where
  has_quota : Bool
  gas_used_today : Int
  remaining_quota : Int
  daily_limit : Int
  reason : String
deriving DecidableEq, Repr

/-- SQL three-valued `NOT` on a possibly NULL boolean. -/
def sqlNot : Option Bool → Option Bool
  | some b => some (!b)
  | none => none

/-- A PL/pgSQL `IF` takes its THEN branch exactly when the condition is TRUE
(a NULL condition behaves like FALSE). -/
def sqlIsTrue : Option Bool → Bool
  | some b => b
  | none => false

/-- Predicate of the `gas_station_blocked_users` lookup (lines 235-239): a row
for the user whose block is permanent or not yet expired. -/
def blockActive (now : Int) (u : String) (b : BlockedEntry) : Bool :=
  b.user_address == u &&
    (match b.blocked_until with
     | none => true
     | some t => decide (now < t))

/-- Variable `v_is_blocked` of `check_user_gas_quota` (lines 235-239). -/
def isBlockedNow (now : Int) (s : GasStationState) (u : String) : Bool :=
  s.blocked.any (blockActive now u)

/-- The row selected by
`FROM gas_station_whitelist WHERE user_address = … AND is_active = true`
(lines 252-253); `user_address` is the primary key, so `find?` is exact. -/
def activeWhitelistEntry (s : GasStationState) (u : String) : Option WhitelistEntry :=
  s.whitelist.find? (fun w => w.user_address == u && w.is_active)

/-- The `SELECT … INTO v_is_whitelisted, v_custom_limit` of lines 248-253.
When the outer query yields a row, its `EXISTS(...)` column is necessarily
TRUE; when it yields no row, both targets are left NULL. -/
def whitelistSelect (s : GasStationState) (u : String) : Option Bool × Option Int :=
  match activeWhitelistEntry s u with
  | some w => (some true, w.custom_daily_limit)
  | none => (none, none)

/-- Variable `v_custom_limit`: assigned only inside the `IF v_config.whitelist_enabled`
block (lines 247-259); it stays NULL when whitelist mode is off. -/
def customLimit (s : GasStationState) (u : String) : Option Int :=
  if s.config.whitelist_enabled then (whitelistSelect s u).2 else none

/-- The `user_daily_quotas` row selected for `(p_user_address, CURRENT_DATE)`
(lines 262-265); the pair is the primary key, so `find?` is exact. -/
def quotaRow (today : Int) (s : GasStationState) (u : String) : Option UserDailyQuota :=
  s.quotas.find? (fun q => q.user_address == u && q.date == today)

/-- Value of `v_quota.gas_used_today` after lines 262-273: `0` when no row exists for
today, else the stored value. -/
def gasUsedToday (today : Int) (s : GasStationState) (u : String) : Int :=
  match quotaRow today s u with
  | none => 0
  | some q => q.gas_used_today

/-- The daily limit `check_user_gas_quota` resolves (lines 267-273): the
quota row's `daily_limit` override when present, else `v_custom_limit`
(set only in whitelist mode, lines 247-259), else the global
`default_daily_limit_per_user`. -/
def effectiveDailyLimit (today : Int) (s : GasStationState) (u : String) : Int :=
  (((quotaRow today s u).bind (fun q => q.daily_limit)).getD
    ((customLimit s u).getD s.config.default_daily_limit_per_user))

/-- Lines 275-303 of `check_user_gas_quota`: the daily-quota comparison, the
per-transaction comparison, and the approval row, over the resolved
`v_quota.gas_used_today` (`U`), `v_quota.daily_limit` (`L`) and
`v_config.max_gas_per_transaction` (`maxTx`). -/
def quotaDecision (U L maxTx g : Int) : QuotaCheckRow :=
  if U + g > L then
    ⟨false, U, L - U, L, "Daily quota exceeded"⟩
  else if g > maxTx then
    ⟨false, U, L - U, L, "Gas per transaction limit exceeded"⟩
  else
    ⟨true, U, L - U, L, "OK"⟩

/-- Lines 261-303: fetch today's quota row, fill in the `NOT FOUND` defaults
(`gas_used_today := 0`, `daily_limit := COALESCE(v_custom_limit, default)`),
coalesce the daily limit, then run the comparisons. -/
def quotaStage (today : Int) (s : GasStationState) (u : String)
    (custom : Option Int) (g : Int) : QuotaCheckRow :=
  match quotaRow today s u with
  | none =>
      quotaDecision 0 (custom.getD s.config.default_daily_limit_per_user)
        s.config.max_gas_per_transaction g
  | some q =>
      quotaDecision q.gas_used_today
        (q.daily_limit.getD (custom.getD s.config.default_daily_limit_per_user))
        s.config.max_gas_per_transaction g

/-- Shallow embedding of the PL/pgSQL function `check_user_gas_quota`
(migration 003, lines 207-305).  The third guard models lines 247-259:
with whitelist mode on, `IF NOT v_is_whitelisted` fires only when
`v_is_whitelisted` is literally FALSE; a user without an active row leaves it
NULL, so the guard is `sqlIsTrue (sqlNot …)`. -/
def check_user_gas_quota (now today : Int) (s : GasStationState)
    (p_user_address : String) (p_estimated_gas : Int) : QuotaCheckRow :=
  if !s.config.enabled || s.config.emergency_stop then
    ⟨false, 0, 0, 0, "Gas station disabled"⟩
  else if isBlockedNow now s p_user_address then
    ⟨false, 0, 0, 0, "User blocked"⟩
  else if s.config.whitelist_enabled &&
      sqlIsTrue (sqlNot (whitelistSelect s p_user_address).1) then
    ⟨false, 0, 0, 0, "User not whitelisted"⟩
  else
    quotaStage today s p_user_address (customLimit s p_user_address) p_estimated_gas

/-- Arguments of `record_gas_usage` (lines 308-316). -/
structure GasUsageArgs where
  p_user_address : String
  p_market_id : Option String
  p_tx_hash : String
  p_tx_version : Int
  p_gas_used : Int
  p_gas_unit_price : Int
  p_fee_payer_address : String
deriving DecidableEq, Repr

/-- Fee `v_total_gas_fee := p_gas_used * p_gas_unit_price` (line 321). -/
def totalGasFee (a : GasUsageArgs) : Int :=
  a.p_gas_used * a.p_gas_unit_price

/-- Whether a `gas_sponsorship_usage` row with this `tx_hash` exists: the
UNIQUE constraint of line 20 rejects a second insert of the same hash. -/
def txHashRecorded (s : GasStationState) (h : String) : Bool :=
  s.usage.any (fun r => r.tx_hash == h)

/-- The `INSERT … ON CONFLICT (user_address, date) DO UPDATE` of lines
346-367 against the `(user_address, date)` primary key: update the unique
conflicting row, else insert a fresh row with `gas_used_today := fee`,
`transactions_today := 1` and NULL override limits. -/
def upsertQuota (today : Int) (u : String) (fee : Int) :
    List UserDailyQuota → List UserDailyQuota
  | [] => [⟨u, today, fee, 1, none, none⟩]
  | q :: qs =>
      if q.user_address == u && q.date == today then
        { q with
            gas_used_today := q.gas_used_today + fee,
            transactions_today := q.transactions_today + 1 } :: qs
      else
        q :: upsertQuota today u fee qs

/-- Shallow embedding of `record_gas_usage` (lines 308-369).  A duplicate
`tx_hash` makes the INSERT of lines 324-343 raise `unique_violation`, which
aborts the function before the quota upsert runs, so the error case carries
no new state. -/
def record_gas_usage (today : Int) (a : GasUsageArgs) (s : GasStationState) :
    Except String GasStationState :=
  let fee := totalGasFee a
  if txHashRecorded s a.p_tx_hash then
    Except.error "unique_violation"
  else
    Except.ok
      { s with
          usage := s.usage ++
            [⟨a.p_market_id, a.p_user_address, a.p_tx_hash, a.p_tx_version,
              a.p_gas_used, a.p_gas_unit_price, fee, a.p_fee_payer_address⟩],
          quotas := upsertQuota today a.p_user_address fee s.quotas }

/-- One call of `record_gas_usage` run inside its own database transaction: a
raised `unique_violation` rolls the transaction back and leaves the store as
it was. -/
def attemptRecord (today : Int) (a : GasUsageArgs) (s : GasStationState) :
    GasStationState :=
  match record_gas_usage today a s with
  | Except.ok s2 => s2
  | Except.error _ => s

/-- A sequence of `record_gas_usage` calls, stopping at the first failure. -/
def runRecords (today : Int) : List GasUsageArgs → GasStationState →
    Except String GasStationState
  | [], s => Except.ok s
  | a :: rest, s =>
      match record_gas_usage today a s with
      | Except.ok s2 => runRecords today rest s2
      | Except.error e => Except.error e

/-- Counter `transactions_today` of today's row for a user (`0` when absent). -/
def txToday (today : Int) (s : GasStationState) (u : String) : Int :=
  match quotaRow today s u with
  | none => 0
  | some q => q.transactions_today

/-- State-passing form of `check_user_gas_quota`: the PL/pgSQL body executes
only `SELECT`s and `RETURN QUERY` (lines 224-304, no INSERT/UPDATE/DELETE),
so every exit pairs its result row with the store it read from. -/
def checkUserGasQuotaSt (now today : Int) (s : GasStationState)
    (u : String) (g : Int) : QuotaCheckRow × GasStationState :=
  if !s.config.enabled || s.config.emergency_stop then
    (⟨false, 0, 0, 0, "Gas station disabled"⟩, s)
  else if isBlockedNow now s u then
    (⟨false, 0, 0, 0, "User blocked"⟩, s)
  else if s.config.whitelist_enabled &&
      sqlIsTrue (sqlNot (whitelistSelect s u).1) then
    (⟨false, 0, 0, 0, "User not whitelisted"⟩, s)
  else
    (quotaStage today s u (customLimit s u) g, s)

/-- The `markets` columns the sponsorship route reads. -/
structure MarketRow where
  id : String
  market_object_address : String
  market_system : String
  contract_module_name : Option String
  is_gas_sponsored : Bool
  status : String
deriving DecidableEq, Repr

/-- Body of the phase-1 sponsorship request
(`{userAddress, marketId, marketAddress, optionIndex, amount}`). -/
structure SponsorBetRequest where
  userAddress : Option String
  marketId : Option String
  marketAddress : Option String
  optionIndex : Option Int
  amount : Option Int
deriving DecidableEq, Repr

/-- JavaScript falsiness of an optional string (`undefined` or `""`). -/
def falsyStr : Option String → Bool
  | none => true
  | some v => v == ""

/-- JavaScript falsiness of an optional number (`undefined` or `0`). -/
def falsyInt : Option Int → Bool
  | none => true
  | some n => n == 0

/-- The responses of the phase-1 route handler, one per exit. -/
inductive SponsorBetResponse where
  | missingFields : SponsorBetResponse
  | marketNotFound : SponsorBetResponse
  | notSponsored : SponsorBetResponse
  | notActive : SponsorBetResponse
  | quotaDenied (message : String) (remaining : Int) : SponsorBetResponse
  | prepared (sender functionPath : String) (optionIndex amount : Int)
      (feePayerAddress : Option String) (estimatedGas : Int) : SponsorBetResponse
deriving DecidableEq, Repr

/-- Shallow embedding of the phase-1 route handler `POST` (the
`/api/sponsor/bet` route): validate the body, fetch the market, require
`is_gas_sponsored` and `active` status, check the quota with the fixed
estimate `100000`, then assemble the sponsored transaction.

Modelled from the spec: the service wrappers `checkUserGasQuota` and
`buildSponsoredTransaction` of `lib/services/gas-sponsor-service` are absent
from the sources; per §4.1-§4.3 the former consults the stored quota policy
(embedded here as `check_user_gas_quota`) and the latter is pure CPU-bound
transaction assembly with no store mutation.  The read-only contract-version
lookup `getMarketFunctionPath` is abstracted as the function argument `fp`,
and the `NEXT_PUBLIC_GAS_SPONSOR_ADDRESS` environment variable as
`feePayerEnv`. -/
def postSponsorBet (now today : Int) (markets : List MarketRow)
    (fp : String → Option String → String) (feePayerEnv : Option String)
    (s : GasStationState) (req : SponsorBetRequest) :
    SponsorBetResponse × GasStationState :=
  if falsyStr req.userAddress || falsyStr req.marketId ||
      req.optionIndex == none || falsyInt req.amount then
    (SponsorBetResponse.missingFields, s)
  else
    match markets.find? (fun m => some m.id == req.marketId) with
    | none => (SponsorBetResponse.marketNotFound, s)
    | some market =>
        if !market.is_gas_sponsored then
          (SponsorBetResponse.notSponsored, s)
        else if !(market.status == "active") then
          (SponsorBetResponse.notActive, s)
        else
          let estimatedGas : Int := 100000
          let q := check_user_gas_quota now today s (req.userAddress.getD "") estimatedGas
          if !q.has_quota then
            (SponsorBetResponse.quotaDenied q.reason q.remaining_quota, s)
          else
            (SponsorBetResponse.prepared (req.userAddress.getD "")
              (fp market.market_system market.contract_module_name)
              (req.optionIndex.getD 0) (req.amount.getD 0)
              feePayerEnv estimatedGas, s)

/-- A state with the per-day transaction counters rewritten: every quota
row's `transactions_today` is replaced (arbitrarily, by `f`) and the config's
`max_transactions_per_user_per_day` is replaced by `m`; every other field is
kept. -/
def overrideTxCounters (f : UserDailyQuota → Int) (m : Int)
    (s : GasStationState) : GasStationState :=
  { s with
      config := { s.config with max_transactions_per_user_per_day := m },
      quotas := s.quotas.map (fun q => { q with transactions_today := f q }) }

/-- The configuration the migration inserts by default (lines 107-119):
daily limit 50 APT, 1 APT per transaction, station enabled, whitelist off. -/
def baseConfig : GasStationConfig :=
  ⟨"0xFEE", 5000000000, 100000000, 50, false, true, true, false⟩

/-- Default configuration over empty tables. -/
def baseState : GasStationState :=
  ⟨baseConfig, [], [], [], []⟩

/-- Whitelist mode switched on, whitelist table empty. -/
def whitelistOnState : GasStationState :=
  { baseState with config := { baseConfig with whitelist_enabled := true } }

/-- A user with a quota row showing zero gas used today. -/
def zeroUsedState : GasStationState :=
  { baseState with quotas := [⟨"0xA", 20000, 0, 0, none, none⟩] }

/-- Whitelist mode on with an active custom limit 2000 for the user, while the
user's daily-quota row carries the per-user override 1000. -/
def overrideState : GasStationState :=
  { baseState with
      config := { baseConfig with whitelist_enabled := true },
      whitelist := [⟨"0xA", some 2000, true, none⟩],
      quotas := [⟨"0xA", 20000, 0, 0, some 1000, none⟩] }

/-- Emergency stop raised while the station is still enabled. -/
def emergencyState : GasStationState :=
  { baseState with config := { baseConfig with emergency_stop := true } }

/-- Station switched off. -/
def disabledState : GasStationState :=
  { baseState with config := { baseConfig with enabled := false } }

/-- A user close to the daily limit: 49.5 APT of 50 APT already used. -/
def nearLimitState : GasStationState :=
  { baseState with quotas := [⟨"0xA", 20000, 4950000000, 3, none, none⟩] }

/-- A confirmed sponsored transaction of user `0xA` (fee 20). -/
def recA : GasUsageArgs :=
  ⟨"0xA", none, "0xhash1", 1, 10, 2, "0xFEE"⟩

/-- A second confirmed sponsored transaction of user `0xA` (fee 15). -/
def recB : GasUsageArgs :=
  ⟨"0xA", none, "0xhash2", 2, 5, 3, "0xFEE"⟩

end Apzdev

namespace Apzdev

/-- The whitelist guard of `check_user_gas_quota` can never fire: for a user
with an active row `v_is_whitelisted` is TRUE, and for any other user it is
NULL, never FALSE. -/
theorem whitelistGuard_false (s : GasStationState) (u : String) :
    (s.config.whitelist_enabled &&
      sqlIsTrue (sqlNot (whitelistSelect s u).1)) = false := by
  unfold whitelistSelect
  cases activeWhitelistEntry s u <;> simp [sqlNot, sqlIsTrue]

theorem quotaDecision_daily_limit (U L M g : Int) :
    (quotaDecision U L M g).daily_limit = L := by
  unfold quotaDecision
  split
  · rfl
  · split <;> rfl

theorem quotaDecision_gas_used (U L M g : Int) :
    (quotaDecision U L M g).gas_used_today = U := by
  unfold quotaDecision
  split
  · rfl
  · split <;> rfl

theorem quotaDecision_remaining (U L M g : Int) :
    (quotaDecision U L M g).remaining_quota = L - U := by
  unfold quotaDecision
  split
  · rfl
  · split <;> rfl

/-- Past the station/blocklist gates, `check_user_gas_quota` is the quota
decision over the resolved gas-used and effective-limit values. -/
theorem check_eq_quotaDecision (now today : Int) (s : GasStationState)
    (u : String) (g : Int)
    (hc : (!s.config.enabled || s.config.emergency_stop) = false)
    (hb : isBlockedNow now s u = false) :
    check_user_gas_quota now today s u g =
      quotaDecision (gasUsedToday today s u) (effectiveDailyLimit today s u)
        s.config.max_gas_per_transaction g := by
  unfold check_user_gas_quota
  rw [hc, hb, whitelistGuard_false]
  simp only [Bool.false_eq_true, if_false]
  unfold quotaStage gasUsedToday effectiveDailyLimit
  cases hq : quotaRow today s u with
  | none => simp [hq]
  | some q => cases hl : q.daily_limit <;> simp [hq, hl]

/-- C1: with whitelist mode enabled and the whitelist empty, the quota check
does not deny the absent user `0xA`: it runs the daily-quota arithmetic and
approves with reason `OK` (`SELECT … INTO` leaves `v_is_whitelisted` NULL for
an absent user, and `IF NOT NULL` takes the ELSE path), contradicting the
claimed `UserNotWhitelisted` denial. -/
theorem c1_absent_user_approved_despite_whitelist :
    whitelistOnState.config.whitelist_enabled = true ∧
    activeWhitelistEntry whitelistOnState "0xA" = none ∧
    check_user_gas_quota 0 20000 whitelistOnState "0xA" 100000000 =
      ⟨true, 0, 5000000000, 5000000000, "OK"⟩ := by
  refine ⟨rfl, rfl, ?_⟩
  decide

/-- C2 counterexample: with the claimed configuration (enabled, daily limit
5000000000, max 100000000 per transaction) and `gasUsedToday = 0`, evaluating
an estimated cost of 100000000 approves but returns remaining quota
5000000000, not the claimed 4900000000. -/
theorem c2_remaining_counterexample :
    (check_user_gas_quota 0 20000 zeroUsedState "0xA" 100000000).has_quota = true ∧
    (check_user_gas_quota 0 20000 zeroUsedState "0xA" 100000000).remaining_quota
      = 5000000000 ∧
    (check_user_gas_quota 0 20000 zeroUsedState "0xA" 100000000).remaining_quota
      ≠ 4900000000 := by
  decide

/-- C2 (amended): for every approved evaluation, the returned remaining quota
equals the effective daily limit minus the gas already used today; the
estimated gas cost of the proposed transaction is not subtracted. -/
theorem c2_remaining_quota_of_approved (now today : Int) (s : GasStationState)
    (u : String) (g : Int)
    (h : (check_user_gas_quota now today s u g).has_quota = true) :
    (check_user_gas_quota now today s u g).remaining_quota =
      effectiveDailyLimit today s u - gasUsedToday today s u := by
  by_cases hc : (!s.config.enabled || s.config.emergency_stop) = true
  · simp [check_user_gas_quota, hc] at h
  · have hcf : (!s.config.enabled || s.config.emergency_stop) = false := by
      simpa using hc
    by_cases hb : isBlockedNow now s u = true
    · simp [check_user_gas_quota, hcf, hb] at h
    · have hbf : isBlockedNow now s u = false := by simpa using hb
      rw [check_eq_quotaDecision now today s u g hcf hbf]
      exact quotaDecision_remaining _ _ _ _

/-- C2 witness: the amended statement evaluated at the scenario of the claim. -/
theorem c2_remaining_quota_witness :
    (check_user_gas_quota 0 20000 zeroUsedState "0xA" 100000000).has_quota = true ∧
    (check_user_gas_quota 0 20000 zeroUsedState "0xA" 100000000).remaining_quota =
      effectiveDailyLimit 20000 zeroUsedState "0xA" -
        gasUsedToday 20000 zeroUsedState "0xA" :=
  ⟨by decide,
   c2_remaining_quota_of_approved 0 20000 zeroUsedState "0xA" 100000000 (by decide)⟩

/-- C5 counterexample: the two kill switches are not distinguished: with
`emergency_stop = true` (station still enabled) the denial reason is the very
same string `Gas station disabled` produced when `enabled = false`, so no
distinct `EmergencyStop` reason exists. -/
theorem c5_reason_counterexample :
    emergencyState.config.enabled = true ∧
    emergencyState.config.emergency_stop = true ∧
    (check_user_gas_quota 0 20000 emergencyState "0xA" 100).reason =
      "Gas station disabled" ∧
    (check_user_gas_quota 0 20000 disabledState "0xA" 100).reason =
      "Gas station disabled" := by
  decide

/-- C5 (amended): when `enabled` is false or `emergency_stop` is true the
evaluation denies for every quota state, but both kill switches produce the
single denial row with reason `Gas station disabled`; there are no two
distinct reasons. -/
theorem c5_kill_switches_deny (now today : Int) (s : GasStationState)
    (u : String) (g : Int)
    (h : s.config.enabled = false ∨ s.config.emergency_stop = true) :
    check_user_gas_quota now today s u g =
      ⟨false, 0, 0, 0, "Gas station disabled"⟩ := by
  unfold check_user_gas_quota
  rcases h with h | h <;> simp [h]

/-- C5 witness: the amended statement at the emergency-stop configuration. -/
theorem c5_kill_switches_witness :
    (emergencyState.config.enabled = false ∨
      emergencyState.config.emergency_stop = true) ∧
    check_user_gas_quota 0 20000 emergencyState "0xA" 100 =
      ⟨false, 0, 0, 0, "Gas station disabled"⟩ :=
  ⟨Or.inr (by decide),
   c5_kill_switches_deny 0 20000 emergencyState "0xA" 100 (Or.inr (by decide))⟩

/-- C3 counterexample: the user's whitelist custom limit (2000) is present,
yet the evaluation resolves the daily limit to the quota row's override
(1000) and denies a 1500-gas request — the opposite of the claimed
precedence, under which the limit would be 2000 and the daily check would
pass. -/
theorem c3_precedence_counterexample :
    (whitelistSelect overrideState "0xA").2 = some 2000 ∧
    check_user_gas_quota 0 20000 overrideState "0xA" 1500 =
      ⟨false, 0, 1000, 1000, "Daily quota exceeded"⟩ ∧
    (check_user_gas_quota 0 20000 overrideState "0xA" 1500).daily_limit ≠ 2000 := by
  decide

/-- C3 (amended): once the station/blocklist gates pass, the evaluation
resolves the effective daily limit with this precedence: the per-user
override stored in the user's daily-quota row if present, otherwise the
whitelist custom limit (fetched only when whitelist mode is enabled and the
user has an active entry), otherwise the global default daily limit. -/
theorem c3_daily_limit_resolution (now today : Int) (s : GasStationState)
    (u : String) (g : Int)
    (h1 : s.config.enabled = true) (h2 : s.config.emergency_stop = false)
    (h3 : isBlockedNow now s u = false) :
    (check_user_gas_quota now today s u g).daily_limit =
      effectiveDailyLimit today s u := by
  have hc : (!s.config.enabled || s.config.emergency_stop) = false := by
    simp [h1, h2]
  rw [check_eq_quotaDecision now today s u g hc h3]
  exact quotaDecision_daily_limit _ _ _ _

/-- C3 witness: the amended statement at the override configuration. -/
theorem c3_daily_limit_witness :
    overrideState.config.enabled = true ∧
    (check_user_gas_quota 0 20000 overrideState "0xA" 1500).daily_limit =
      effectiveDailyLimit 20000 overrideState "0xA" :=
  ⟨by decide,
   c3_daily_limit_resolution 0 20000 overrideState "0xA" 1500 (by decide)
     (by decide) (by decide)⟩

/-- C6 counterexample: with the default configuration, empty quota table
(`gasUsedToday = 0`, effective limit 5000000000), the claimed boundary input
`effectiveDailyLimit - gasUsedToday = 5000000000` is not approved: it is
denied with reason `Gas per transaction limit exceeded`. -/
theorem c6_boundary_counterexample :
    effectiveDailyLimit 20000 baseState "0xA" -
      gasUsedToday 20000 baseState "0xA" = 5000000000 ∧
    (check_user_gas_quota 0 20000 baseState "0xA" 5000000000).has_quota = false ∧
    (check_user_gas_quota 0 20000 baseState "0xA" 5000000000).reason =
      "Gas per transaction limit exceeded" := by
  decide

/-- C6 (amended): past the station/blocklist gates, an evaluation with
estimated cost equal to the effective daily limit minus the gas used today is
approved provided that amount also does not exceed the per-transaction cap,
while an evaluation with estimated cost one unit larger is denied with
reason `Daily quota exceeded`. -/
theorem c6_daily_quota_boundary (now today : Int) (s : GasStationState)
    (u : String)
    (h1 : s.config.enabled = true) (h2 : s.config.emergency_stop = false)
    (h3 : isBlockedNow now s u = false)
    (hmax : effectiveDailyLimit today s u - gasUsedToday today s u ≤
      s.config.max_gas_per_transaction) :
    (check_user_gas_quota now today s u
        (effectiveDailyLimit today s u - gasUsedToday today s u)).has_quota
      = true ∧
    (check_user_gas_quota now today s u
        (effectiveDailyLimit today s u - gasUsedToday today s u)).reason
      = "OK" ∧
    (check_user_gas_quota now today s u
        (effectiveDailyLimit today s u - gasUsedToday today s u + 1)).has_quota
      = false ∧
    (check_user_gas_quota now today s u
        (effectiveDailyLimit today s u - gasUsedToday today s u + 1)).reason
      = "Daily quota exceeded" := by
  have hc : (!s.config.enabled || s.config.emergency_stop) = false := by
    simp [h1, h2]
  rw [check_eq_quotaDecision now today s u
      (effectiveDailyLimit today s u - gasUsedToday today s u) hc h3,
    check_eq_quotaDecision now today s u
      (effectiveDailyLimit today s u - gasUsedToday today s u + 1) hc h3]
  unfold quotaDecision
  have hA : ¬ (gasUsedToday today s u +
      (effectiveDailyLimit today s u - gasUsedToday today s u) >
      effectiveDailyLimit today s u) := by omega
  have hB : ¬ (effectiveDailyLimit today s u - gasUsedToday today s u >
      s.config.max_gas_per_transaction) := by omega
  have hC : gasUsedToday today s u +
      (effectiveDailyLimit today s u - gasUsedToday today s u + 1) >
      effectiveDailyLimit today s u := by omega
  simp [hA, hB, hC]

/-- C6 witness: the amended statement for a user with 4950000000 of the
5000000000 daily limit already used (boundary headroom 50000000, below the
per-transaction cap). -/
theorem c6_daily_quota_witness :
    effectiveDailyLimit 20000 nearLimitState "0xA" -
        gasUsedToday 20000 nearLimitState "0xA" ≤
      nearLimitState.config.max_gas_per_transaction ∧
    (check_user_gas_quota 0 20000 nearLimitState "0xA"
        (effectiveDailyLimit 20000 nearLimitState "0xA" -
          gasUsedToday 20000 nearLimitState "0xA")).has_quota = true ∧
    (check_user_gas_quota 0 20000 nearLimitState "0xA"
        (effectiveDailyLimit 20000 nearLimitState "0xA" -
          gasUsedToday 20000 nearLimitState "0xA")).reason = "OK" ∧
    (check_user_gas_quota 0 20000 nearLimitState "0xA"
        (effectiveDailyLimit 20000 nearLimitState "0xA" -
          gasUsedToday 20000 nearLimitState "0xA" + 1)).has_quota = false ∧
    (check_user_gas_quota 0 20000 nearLimitState "0xA"
        (effectiveDailyLimit 20000 nearLimitState "0xA" -
          gasUsedToday 20000 nearLimitState "0xA" + 1)).reason =
      "Daily quota exceeded" :=
  ⟨by decide,
   c6_daily_quota_boundary 0 20000 nearLimitState "0xA" (by decide) (by decide)
     (by decide) (by decide)⟩

/-- C7: past the station/blocklist gates, for every user state with enough
daily headroom for the request, an evaluation whose estimated cost strictly
exceeds `max_gas_per_transaction` is denied with reason
`Gas per transaction limit exceeded`. -/
theorem c7_per_transaction_limit (now today : Int) (s : GasStationState)
    (u : String) (g : Int)
    (h1 : s.config.enabled = true) (h2 : s.config.emergency_stop = false)
    (h3 : isBlockedNow now s u = false)
    (hhead : gasUsedToday today s u + g ≤ effectiveDailyLimit today s u)
    (hg : s.config.max_gas_per_transaction < g) :
    check_user_gas_quota now today s u g =
      ⟨false, gasUsedToday today s u,
        effectiveDailyLimit today s u - gasUsedToday today s u,
        effectiveDailyLimit today s u,
        "Gas per transaction limit exceeded"⟩ := by
  have hc : (!s.config.enabled || s.config.emergency_stop) = false := by
    simp [h1, h2]
  rw [check_eq_quotaDecision now today s u g hc h3]
  unfold quotaDecision
  have hA : ¬ (gasUsedToday today s u + g > effectiveDailyLimit today s u) := by
    omega
  rw [if_neg hA, if_pos hg]

/-- C7 witness: `max_gas_per_transaction + 1` with the full daily quota
still available. -/
theorem c7_per_transaction_witness :
    baseState.config.max_gas_per_transaction < 100000001 ∧
    check_user_gas_quota 0 20000 baseState "0xA" 100000001 =
      ⟨false, gasUsedToday 20000 baseState "0xA",
        effectiveDailyLimit 20000 baseState "0xA" -
          gasUsedToday 20000 baseState "0xA",
        effectiveDailyLimit 20000 baseState "0xA",
        "Gas per transaction limit exceeded"⟩ :=
  ⟨by decide,
   c7_per_transaction_limit 0 20000 baseState "0xA" 100000001 (by decide)
     (by decide) (by decide) (by decide) (by decide)⟩

/-- The `ON CONFLICT` upsert adds `fee` to the gas counter of the
`(u, today)` row (`0` when the row did not yet exist). -/
theorem findGas_upsert (today : Int) (u : String) (fee : Int)
    (l : List UserDailyQuota) :
    (match (upsertQuota today u fee l).find?
        (fun q => q.user_address == u && q.date == today) with
     | none => 0
     | some q => q.gas_used_today)
    = (match l.find? (fun q => q.user_address == u && q.date == today) with
       | none => 0
       | some q => q.gas_used_today) + fee := by
  induction l with
  | nil => simp [upsertQuota, List.find?]
  | cons q qs ih =>
      unfold upsertQuota
      by_cases hq : (q.user_address == u && q.date == today) = true
      · rw [if_pos hq]
        simp [List.find?, hq]
      · have hqf : (q.user_address == u && q.date == today) = false := by
          simpa using hq
        rw [if_neg hq]
        simp [List.find?, hqf, ih]

/-- The `ON CONFLICT` upsert adds one to the transaction counter of the
`(u, today)` row (`0` when the row did not yet exist). -/
theorem findTx_upsert (today : Int) (u : String) (fee : Int)
    (l : List UserDailyQuota) :
    (match (upsertQuota today u fee l).find?
        (fun q => q.user_address == u && q.date == today) with
     | none => 0
     | some q => q.transactions_today)
    = (match l.find? (fun q => q.user_address == u && q.date == today) with
       | none => 0
       | some q => q.transactions_today) + 1 := by
  induction l with
  | nil => simp [upsertQuota, List.find?]
  | cons q qs ih =>
      unfold upsertQuota
      by_cases hq : (q.user_address == u && q.date == today) = true
      · rw [if_pos hq]
        simp [List.find?, hq]
      · have hqf : (q.user_address == u && q.date == today) = false := by
          simpa using hq
        rw [if_neg hq]
        simp [List.find?, hqf, ih]

/-- C4: recording usage twice with the same transaction hash is rejected on
the second attempt by the `tx_hash` UNIQUE constraint before any counter is
touched, so running the duplicate in its own transaction leaves the whole
store — in particular `gas_used_today` and `transactions_today` — exactly as
it was after the first recording. -/
theorem c4_duplicate_hash_idempotent (today : Int) (a : GasUsageArgs)
    (s : GasStationState) :
    record_gas_usage today a (attemptRecord today a s) =
      Except.error "unique_violation" ∧
    attemptRecord today a (attemptRecord today a s) = attemptRecord today a s := by
  have hrec : txHashRecorded (attemptRecord today a s) a.p_tx_hash = true := by
    unfold attemptRecord
    cases hr : record_gas_usage today a s with
    | ok s2 =>
        unfold record_gas_usage at hr
        by_cases hd : txHashRecorded s a.p_tx_hash = true
        · simp [hd] at hr
        · simp only [Bool.not_eq_true] at hd
          simp only [hd, Bool.false_eq_true, if_false, Except.ok.injEq] at hr
          subst hr
          simp [txHashRecorded, List.any_append]
    | error e =>
        unfold record_gas_usage at hr
        by_cases hd : txHashRecorded s a.p_tx_hash = true
        · exact hd
        · simp only [Bool.not_eq_true] at hd
          simp [hd] at hr
  have herr : record_gas_usage today a (attemptRecord today a s) =
      Except.error "unique_violation" := by
    unfold record_gas_usage
    simp [hrec]
  refine ⟨herr, ?_⟩
  set t := attemptRecord today a s with ht
  simp only [attemptRecord]
  rw [herr]

/-- Inserting a fresh hash via `record_gas_usage` succeeds and bumps the
user's daily counters by the transaction's total fee and by one transaction,
while extending the set of recorded hashes by exactly that hash. -/
theorem record_ok_exists (today : Int) (a : GasUsageArgs) (s : GasStationState)
    (h : txHashRecorded s a.p_tx_hash = false) :
    ∃ s1, record_gas_usage today a s = Except.ok s1 ∧
      gasUsedToday today s1 a.p_user_address =
        gasUsedToday today s a.p_user_address + totalGasFee a ∧
      txToday today s1 a.p_user_address =
        txToday today s a.p_user_address + 1 ∧
      ∀ x, txHashRecorded s1 x =
        (txHashRecorded s x || (a.p_tx_hash == x)) := by
  have hok : record_gas_usage today a s = Except.ok
      { s with
          usage := s.usage ++ [⟨a.p_market_id, a.p_user_address, a.p_tx_hash,
            a.p_tx_version, a.p_gas_used, a.p_gas_unit_price, totalGasFee a,
            a.p_fee_payer_address⟩],
          quotas := upsertQuota today a.p_user_address (totalGasFee a)
            s.quotas } := by
    unfold record_gas_usage
    simp [h]
  refine ⟨_, hok, ?_, ?_, ?_⟩
  · unfold gasUsedToday quotaRow
    dsimp only
    exact findGas_upsert today a.p_user_address (totalGasFee a) s.quotas
  · unfold txToday quotaRow
    dsimp only
    exact findTx_upsert today a.p_user_address (totalGasFee a) s.quotas
  · intro x
    unfold txHashRecorded
    dsimp only
    simp [List.any_append]

/-- Folding a batch of fresh, pairwise-distinct hashes through
`record_gas_usage` for one user succeeds and adds exactly the batch's total
fee and count to that user's daily counters. -/
theorem runRecords_ok (today : Int) (u : String) :
    ∀ (rs : List GasUsageArgs) (s : GasStationState),
      (∀ r ∈ rs, r.p_user_address = u) →
      ((rs.map (fun r => r.p_tx_hash)).Nodup) →
      (∀ r ∈ rs, txHashRecorded s r.p_tx_hash = false) →
      ∃ s2, runRecords today rs s = Except.ok s2 ∧
        gasUsedToday today s2 u =
          gasUsedToday today s u + (rs.map totalGasFee).sum ∧
        txToday today s2 u = txToday today s u + rs.length := by
  intro rs
  induction rs with
  | nil =>
      intro s _ _ _
      exact ⟨s, rfl, by simp, by simp⟩
  | cons a rest ih =>
      intro s hu hnd hfresh
      have hau : a.p_user_address = u := hu a (List.mem_cons_self a rest)
      have ha : txHashRecorded s a.p_tx_hash = false :=
        hfresh a (List.mem_cons_self a rest)
      obtain ⟨s1, hok, hg1, ht1, hh1⟩ := record_ok_exists today a s ha
      rw [hau] at hg1 ht1
      rw [List.map_cons, List.nodup_cons] at hnd
      obtain ⟨hnotmem, hndrest⟩ := hnd
      have hfresh1 : ∀ r ∈ rest, txHashRecorded s1 r.p_tx_hash = false := by
        intro r hr
        rw [hh1]
        have h1 : txHashRecorded s r.p_tx_hash = false :=
          hfresh r (List.mem_cons_of_mem a hr)
        have h2 : (a.p_tx_hash == r.p_tx_hash) = false := by
          have hne : a.p_tx_hash ≠ r.p_tx_hash := by
            intro he
            exact hnotmem
              (he ▸ List.mem_map_of_mem (fun r => r.p_tx_hash) hr)
          simpa using hne
        rw [h1, h2]
        rfl
      obtain ⟨s2, hrun, hg2, ht2⟩ :=
        ih s1 (fun r hr => hu r (List.mem_cons_of_mem a hr)) hndrest hfresh1
      refine ⟨s2, ?_, ?_, ?_⟩
      · simp only [runRecords]
        rw [hok]
        exact hrun
      · rw [hg2, hg1]
        simp only [List.map_cons, List.sum_cons]
        omega
      · rw [ht2, ht1]
        simp only [List.length_cons]
        omega

/-- C8: after a batch of successful `record_gas_usage` calls for the same
user and date with pairwise-distinct fresh transaction hashes, the user's
`gas_used_today` grew by the sum of the recorded total fees and
`transactions_today` by the number of calls, and any permutation of the batch
succeeds with the same final counters. -/
theorem c8_usage_accumulates (today : Int) (u : String)
    (rs : List GasUsageArgs) (s : GasStationState)
    (hu : ∀ r ∈ rs, r.p_user_address = u)
    (hnd : (rs.map (fun r => r.p_tx_hash)).Nodup)
    (hfresh : ∀ r ∈ rs, txHashRecorded s r.p_tx_hash = false) :
    (∃ s2, runRecords today rs s = Except.ok s2 ∧
        gasUsedToday today s2 u =
          gasUsedToday today s u + (rs.map totalGasFee).sum ∧
        txToday today s2 u = txToday today s u + rs.length) ∧
    ∀ rs2, rs.Perm rs2 →
      ∃ s2, runRecords today rs2 s = Except.ok s2 ∧
        gasUsedToday today s2 u =
          gasUsedToday today s u + (rs.map totalGasFee).sum ∧
        txToday today s2 u = txToday today s u + rs.length := by
  refine ⟨runRecords_ok today u rs s hu hnd hfresh, ?_⟩
  intro rs2 hp
  obtain ⟨s2, h1, h2, h3⟩ := runRecords_ok today u rs2 s
    (fun r hr => hu r (hp.mem_iff.mpr hr))
    ((hp.map (fun r => r.p_tx_hash)).nodup_iff.mp hnd)
    (fun r hr => hfresh r (hp.mem_iff.mpr hr))
  refine ⟨s2, h1, ?_, ?_⟩
  · rw [h2, (hp.map totalGasFee).sum_eq]
  · rw [h3, hp.length_eq]

/-- C8 witness: two transactions of user `0xA` with distinct hashes over the
empty store. -/
theorem c8_usage_witness :
    (∃ s2, runRecords 20000 [recA, recB] baseState = Except.ok s2 ∧
        gasUsedToday 20000 s2 "0xA" =
          gasUsedToday 20000 baseState "0xA" +
            (([recA, recB] : List GasUsageArgs).map totalGasFee).sum ∧
        txToday 20000 s2 "0xA" =
          txToday 20000 baseState "0xA" +
            ([recA, recB] : List GasUsageArgs).length) ∧
    ∀ rs2, ([recA, recB] : List GasUsageArgs).Perm rs2 →
      ∃ s2, runRecords 20000 rs2 baseState = Except.ok s2 ∧
        gasUsedToday 20000 s2 "0xA" =
          gasUsedToday 20000 baseState "0xA" +
            (([recA, recB] : List GasUsageArgs).map totalGasFee).sum ∧
        txToday 20000 s2 "0xA" =
          txToday 20000 baseState "0xA" +
            ([recA, recB] : List GasUsageArgs).length :=
  c8_usage_accumulates 20000 "0xA" [recA, recB] baseState (by decide)
    (by decide) (by decide)

/-- C9: the eligibility evaluation mutates nothing: both the quota-check
function (pure `SELECT`s) and the phase-1 sponsorship route return the
gas-station store exactly as they found it, for every input. -/
theorem c9_evaluation_is_pure (now today : Int) (s : GasStationState)
    (u : String) (g : Int) (markets : List MarketRow)
    (fp : String → Option String → String) (env : Option String)
    (req : SponsorBetRequest) :
    (checkUserGasQuotaSt now today s u g).2 = s ∧
    (postSponsorBet now today markets fp env s req).2 = s := by
  constructor
  · unfold checkUserGasQuotaSt
    split
    · rfl
    · split
      · rfl
      · split
        · rfl
        · rfl
  · unfold postSponsorBet
    split
    · rfl
    · split
      · rfl
      · split
        · rfl
        · split
          · rfl
          · dsimp only
            split
            · rfl
            · rfl

/-- With the primary key untouched, rewriting a row's transaction counter
commutes with the `(user, date)` point lookup. -/
theorem find?_quota_txn_map (today : Int) (u : String)
    (f : UserDailyQuota → Int) (l : List UserDailyQuota) :
    (l.map (fun q => { q with transactions_today := f q })).find?
        (fun q => q.user_address == u && q.date == today)
      = (l.find? (fun q => q.user_address == u && q.date == today)).map
          (fun q => { q with transactions_today := f q }) := by
  induction l with
  | nil => rfl
  | cons q qs ih =>
      simp only [List.map_cons, List.find?]
      by_cases hq : (q.user_address == u && q.date == today) = true
      · simp [hq]
      · have hqf : (q.user_address == u && q.date == today) = false := by
          simpa using hq
        simp [hqf, ih]

/-- C10: the per-day transaction-count limit is never enforced: rewriting
every quota row's `transactions_today` (arbitrarily) and the config's
`max_transactions_per_user_per_day` leaves the evaluation's result unchanged
for every user and estimate, so no denial can depend on transaction counts. -/
theorem c10_tx_counters_never_read (now today : Int) (s : GasStationState)
    (u : String) (g : Int) (f : UserDailyQuota → Int) (m : Int) :
    check_user_gas_quota now today (overrideTxCounters f m s) u g =
      check_user_gas_quota now today s u g := by
  have hq : quotaRow today (overrideTxCounters f m s) u =
      (quotaRow today s u).map
        (fun q => { q with transactions_today := f q }) := by
    unfold quotaRow overrideTxCounters
    dsimp only
    exact find?_quota_txn_map today u f s.quotas
  unfold check_user_gas_quota quotaStage
  rw [hq]
  cases hr : quotaRow today s u with
  | none =>
      simp only [hr, Option.map_none']
      rfl
  | some q =>
      simp only [hr, Option.map_some']
      rfl

end Apzdev
